import Mathlib

/-!
Shallow embedding of `rtv/__main__.py` (the `main` entry point of the rtv
terminal reddit viewer) together with the parts of the spec's navigation and
authorization model that the claims refer to.  Collaborator modules that are
not part of the sources here (`rtv.config`, `rtv.curses_helpers`, `rtv.oauth`,
`rtv.submission`, `rtv.subreddit`, `praw`) are modelled from the spec where a
claim depends on them; each such definition carries a doc comment saying so.
-/

namespace RTV

/-! ## Config-file merging

Embedding of the loop in `main`:

    local_config = config.load_config()
    for key, val in local_config.items():
        if getattr(args, key, None) is None:
            setattr(args, key, val)

The parsed argument namespace is modelled as a function from attribute names
to optional values (`none` models both a missing attribute, for which
`getattr(args, key, None)` returns `None`, and an attribute parsed as `None`).
The config file is a finite list of key/value pairs (a Python dict has no
duplicate keys, but none of the theorems below need that). -/

/-- Embedding of one loop iteration in `main`: `setattr(args, key, val)`
guarded by `getattr(args, key, None) is None`. -/
def setattrIfNone {α : Type} (args : String → Option α) (key : String) (val : α) :
    String → Option α :=
  match args key with
  | none => fun k => if k = key then some val else args k
  | some _ => args

/-- Embedding of the whole `for key, val in local_config.items()` loop in
`main`: fold `setattrIfNone` over the config items in order. -/
def apply_config_defaults {α : Type} (args : String → Option α)
    (cfg : List (String × α)) : String → Option α :=
  cfg.foldl (fun a kv => setattrIfNone a kv.1 kv.2) args

/-- First value bound to a key in the config item list, if any. -/
def lookupKey {α : Type} (k : String) : List (String × α) → Option α
  | [] => none
  | kv :: rest => if kv.1 = k then some kv.2 else lookupKey k rest

theorem setattrIfNone_of_some {α : Type} (a : String → Option α) (key k : String)
    (val v : α) (h : a k = some v) : setattrIfNone a key val k = some v := by
  unfold setattrIfNone
  cases hk : a key with
  | none =>
      simp only
      by_cases hkk : k = key
      · subst hkk; rw [h] at hk; cases hk
      · simp [hkk, h]
  | some w => simpa using h

theorem apply_config_defaults_of_some {α : Type} (cfg : List (String × α)) :
    ∀ (a : String → Option α) (k : String) (v : α), a k = some v →
      apply_config_defaults a cfg k = some v := by
  induction cfg with
  | nil => intro a k v h; simpa [apply_config_defaults] using h
  | cons kv rest ih =>
      intro a k v h
      have h' : setattrIfNone a kv.1 kv.2 k = some v :=
        setattrIfNone_of_some a kv.1 k kv.2 v h
      simpa [apply_config_defaults, List.foldl_cons] using
        ih (setattrIfNone a kv.1 kv.2) k v h'

theorem apply_config_defaults_of_none {α : Type} (cfg : List (String × α)) :
    ∀ (a : String → Option α) (k : String), a k = none →
      apply_config_defaults a cfg k = lookupKey k cfg := by
  induction cfg with
  | nil => intro a k h; simpa [apply_config_defaults, lookupKey] using h
  | cons kv rest ih =>
      intro a k h
      by_cases hk : kv.1 = k
      · subst hk
        have ha : a kv.1 = none := h
        have hset : setattrIfNone a kv.1 kv.2 kv.1 = some kv.2 := by
          unfold setattrIfNone; rw [ha]; simp
        have := apply_config_defaults_of_some rest (setattrIfNone a kv.1 kv.2)
          kv.1 kv.2 hset
        simpa [apply_config_defaults, List.foldl_cons, lookupKey] using this
      · have hset : setattrIfNone a kv.1 kv.2 k = none := by
          unfold setattrIfNone
          cases hcur : a kv.1 with
          | none =>
              simp only
              have : ¬ k = kv.1 := fun hcontra => hk hcontra.symm
              simp [this, h]
          | some w => simpa using h
        have := ih (setattrIfNone a kv.1 kv.2) k hset
        simpa [apply_config_defaults, List.foldl_cons, lookupKey, hk] using this

/-- C10: for every configuration key, the on-disk config value is applied only
when the parsed command-line value is `None`; an argument explicitly given on
the command line (non-`None`) is never overwritten by the config file, and a
`None` argument receives the (first) config-file value for that key. -/
theorem config_defaults_never_overwrite_cli {α : Type}
    (a : String → Option α) (cfg : List (String × α)) (k : String) (v : α) :
    (a k = some v → apply_config_defaults a cfg k = some v)
    ∧ (a k = none → apply_config_defaults a cfg k = lookupKey k cfg) :=
  ⟨fun h => apply_config_defaults_of_some cfg a k v h,
   fun h => apply_config_defaults_of_none cfg a k h⟩

/-- Concrete argument namespace for the C10 witness: `log` was given on the
command line, everything else was not. -/
def argsEx : String → Option String :=
  fun k => if k = "log" then some "debug.log" else none

/-- Concrete config file for the C10 witness. -/
def cfgEx : List (String × String) :=
  [("log", "other.log"), ("subreddit", "python")]

theorem config_defaults_never_overwrite_cli_witness :
    apply_config_defaults argsEx cfgEx "log" = some "debug.log"
    ∧ apply_config_defaults argsEx cfgEx "subreddit" = some "python" := by
  constructor
  · exact (config_defaults_never_overwrite_cli argsEx cfgEx "log" "debug.log").1
      (by simp [argsEx])
  · have := (config_defaults_never_overwrite_cli
      (α := String) argsEx cfgEx "subreddit" "python").2 (by simp [argsEx])
    simpa [cfgEx, lookupKey] using this

/-! ## The SIGINT handler

Embedding of

    def sigint_handler(signal, frame):
        if prompt_yesno(stdscr, "Do you really want to quit? (y/n): "):
            sys.exit()
    signal.signal(signal.SIGINT, sigint_handler)

`sigint_handler` is a closure over `main`'s local `stdscr`, which is bound
only later by `with curses_session() as stdscr`.  The handler is installed
before that binding, so a delivery of SIGINT before the `with` block raises
`NameError` inside the handler instead of prompting.  The handler never
references any navigation state, so we thread an opaque navigation state
through it unchanged. -/

/-- Observable actions on the render surface (the spec's `draw`/`getKey`). -/
inductive UIAction where
  | draw (text : String)
  | readKey
deriving DecidableEq

/-- Navigation state of the current page, as the spec's `NavigationState`:
selected index, scroll offset, number of flattened visible rows and viewport
height.  (Its operations are defined further below for claim C6; the SIGINT
handler only needs that the state exists.) -/
structure NavigationState where
  selectedIndex : Nat
  scrollOffset : Nat
  numRows : Nat
  viewportHeight : Nat
deriving DecidableEq

/-- Prompt text used by both quit-confirmation sites in `main`. -/
def quitPrompt : String := "Do you really want to quit? (y/n): "

/-- Modelled from the spec: `prompt_yesno` lives in `rtv.curses_helpers`,
which is not among the sources.  Per the spec's render surface interface it
draws the prompt text on the screen and reads one key event, returning
whether the user answered yes.  `answer` stands for the key the user types. -/
def prompt_yesno (msg : String) (answer : Bool) : List UIAction × Bool :=
  ([UIAction.draw msg, UIAction.readKey], answer)

/-- How a single run of the signal handler ends. -/
inductive HandlerResult where
  | exited
  | returned
  | crashed (exc : String)
deriving DecidableEq

/-- Everything observable about one run of the signal handler: the render
actions it performed, how it ended, and the navigation state afterwards. -/
structure HandlerRun where
  actions : List UIAction
  result : HandlerResult
  nav : NavigationState
deriving DecidableEq

/-- Embedding of `sigint_handler`.  `stdscrBound` records whether `main`'s
local `stdscr` has already been bound by `with curses_session() as stdscr`
when the signal is delivered; referencing the free variable `stdscr` before
that binding raises `NameError`.  `answer` is the key the user would type at
the prompt; `nav` is the navigation state at delivery time (the handler body
never mentions it). -/
def sigint_handler (stdscrBound : Bool) (answer : Bool) (nav : NavigationState) :
    HandlerRun :=
  if stdscrBound then
    let r := prompt_yesno quitPrompt answer
    if r.2 then ⟨r.1, .exited, nav⟩ else ⟨r.1, .returned, nav⟩
  else
    ⟨[], .crashed "NameError", nav⟩

/-- Example navigation state used in the closed counterexamples. -/
def navEx : NavigationState := ⟨2, 1, 5, 3⟩

/-- C1 counterexample: a SIGINT delivered before the curses session binds
`stdscr` (for example during argument parsing or config loading, after the
handler is already installed) shows no confirmation prompt at all — the
handler crashes with `NameError` — refuting the claim that every delivery
while the program runs produces a yes/no prompt. -/
theorem sigint_before_session_shows_no_prompt :
    (sigint_handler false true navEx).actions = []
    ∧ (sigint_handler false true navEx).result = .crashed "NameError" := by
  constructor <;> rfl

/-- C1 amended: once the curses session has bound `stdscr`, every SIGINT
delivery shows the yes/no confirmation prompt; confirming terminates the
process and declining returns from the handler, and in either case the
handler leaves the navigation state exactly as it found it. -/
theorem sigint_in_session_prompts_and_preserves_nav
    (answer : Bool) (nav : NavigationState) :
    UIAction.draw quitPrompt ∈ (sigint_handler true answer nav).actions
    ∧ (sigint_handler true answer nav).result
        = (if answer then .exited else .returned)
    ∧ (sigint_handler true answer nav).nav = nav := by
  cases answer <;> simp [sigint_handler, prompt_yesno]

/-- C7 counterexample: the installed SIGINT handler does reenter rendering
code — it draws the confirmation prompt and reads a key from inside the
handler — refuting the claim that it never does. -/
theorem sigint_handler_reads_key_inside_handler :
    UIAction.readKey ∈ (sigint_handler true true navEx).actions := by
  simp [sigint_handler, prompt_yesno]

/-- C7 amended: quit confirmation is driven by the signal handler itself, not
by a cancellation flag checked in the main loop: on every delivery with the
screen bound, the handler's own run consists exactly of drawing the quit
prompt and reading a key on the render surface. -/
theorem sigint_handler_renders_confirmation
    (answer : Bool) (nav : NavigationState) :
    (sigint_handler true answer nav).actions
      = [UIAction.draw quitPrompt, UIAction.readKey] := by
  cases answer <;> rfl

/-! ## The curses-session body: try / except / finally

Embedding of the `try` block inside `with curses_session() as stdscr` in
`main`:

    try:
        ... praw.Reddit(...) binds reddit ... pages run ...
    except (exceptions.RequestException, praw.errors.PRAWException,
            RTVError) as e:
        _logger.exception(e)
        print(type(e).__name__ + ": " + str(e))
    except KeyboardInterrupt:
        if prompt_yesno(stdscr, "Do you really want to quit? (y/n): "):
            sys.exit()
    finally:
        reddit.handler.http.close()
        tornado.ioloop.IOLoop.current().close(all_fds=True)

The body either completes or raises an exception; `redditBound` records
whether the local `reddit` was bound (by `praw.Reddit(...)` succeeding)
before the exception was raised.  In the `finally` block, `reddit` is a local
variable referenced before assignment when unbound, which raises
`UnboundLocalError` and prevents both close calls from running; a `finally`
block that raises replaces any in-flight exception. -/

/-- Exceptions that can escape the try body, with the dynamic class name and
message where the except clause uses them. -/
inductive Exc where
  | requestException (name msg : String)
  | prawException (name msg : String)
  | rtvError (name msg : String)
  | keyboardInterrupt
  | otherExc (name : String)
deriving DecidableEq

/-- Result of running the `finally` block, given whether `reddit` is bound:
which close calls ran and whether the block itself raised. -/
structure CleanupResult where
  httpClosed : Bool
  fdsClosed : Bool
  raised : Option String
deriving DecidableEq

/-- Embedding of the `finally` block: `reddit.handler.http.close()` followed
by `tornado.ioloop.IOLoop.current().close(all_fds=True)`.  If `reddit` was
never bound the first statement raises `UnboundLocalError` and neither close
call runs. -/
def finallyBlock (redditBound : Bool) : CleanupResult :=
  if redditBound then ⟨true, true, none⟩
  else ⟨false, false, some "UnboundLocalError"⟩

/-- Everything observable about one run of the session's
try / except / finally: which resources were closed, whether the error was
logged, the one-line status printed by the service-error handler, the render
actions of the quit prompt, and the exception (by name) escaping the block,
if any. -/
structure SessionResult where
  httpClosed : Bool
  fdsClosed : Bool
  logged : Bool
  printedLine : Option String
  promptActions : List UIAction
  escaped : Option String
deriving DecidableEq

/-- Embedding of the session's try / except / finally.  `body` is `none` when
the try body runs to completion (so `reddit` is bound), and
`some (redditBound, e)` when the body raises `e` with `redditBound` recording
whether `praw.Reddit(...)` had already bound `reddit`.  `quitAnswer` is the
key the user types if the `KeyboardInterrupt` prompt is reached.  The
`finally` block runs on every path, and if it raises, its exception replaces
whatever was in flight. -/
def runSession (body : Option (Bool × Exc)) (quitAnswer : Bool) : SessionResult :=
  match body with
  | none =>
      let c := finallyBlock true
      ⟨c.httpClosed, c.fdsClosed, false, none, [], c.raised⟩
  | some (redditBound, e) =>
      let c := finallyBlock redditBound
      match e with
      | .requestException n m =>
          ⟨c.httpClosed, c.fdsClosed, true, some (n ++ ": " ++ m), [], c.raised⟩
      | .prawException n m =>
          ⟨c.httpClosed, c.fdsClosed, true, some (n ++ ": " ++ m), [], c.raised⟩
      | .rtvError n m =>
          ⟨c.httpClosed, c.fdsClosed, true, some (n ++ ": " ++ m), [], c.raised⟩
      | .keyboardInterrupt =>
          let r := prompt_yesno quitPrompt quitAnswer
          if r.2 then
            ⟨c.httpClosed, c.fdsClosed, false, none, r.1,
              some (c.raised.getD "SystemExit")⟩
          else
            ⟨c.httpClosed, c.fdsClosed, false, none, r.1, c.raised⟩
      | .otherExc n =>
          ⟨c.httpClosed, c.fdsClosed, false, none, [],
            some (c.raised.getD n)⟩

/-- C2 counterexample: a caught service error — here a `ConnectionError`
raised by `praw.Reddit(...)` itself, before `reddit` is bound — is an exit
path out of the browsing session on which neither the HTTP connection nor the
event loop's file descriptors are closed: the `finally` block raises
`UnboundLocalError` before reaching either close call. -/
theorem session_error_path_skips_cleanup :
    ¬ ((runSession (some (false, .requestException "ConnectionError" "refused"))
          false).httpClosed = true
        ∧ (runSession (some (false, .requestException "ConnectionError" "refused"))
          false).fdsClosed = true) := by
  decide

/-- C2 amended: on every exit path out of the browsing session on which the
content-service client was successfully constructed — normal completion, any
raised-and-caught or escaping exception, and in particular a caught service
error or a user-confirmed quit — the HTTP connection and the event loop's
file descriptors are both closed before the block is left; when the error was
raised before the client was bound, the cleanup itself raises and neither is
closed. -/
theorem session_cleanup_closes_when_client_bound (e : Exc) (quitAnswer : Bool) :
    (runSession none quitAnswer).httpClosed = true
    ∧ (runSession none quitAnswer).fdsClosed = true
    ∧ (runSession (some (true, e)) quitAnswer).httpClosed = true
    ∧ (runSession (some (true, e)) quitAnswer).fdsClosed = true := by
  cases e <;> cases quitAnswer <;> simp [runSession, finallyBlock, prompt_yesno]

/-- C8: when the try body raises before `reddit` is bound (for example the
`praw.Reddit(...)` constructor itself fails), the `finally` block references
the unbound local `reddit` and itself raises `UnboundLocalError`, so neither
the HTTP close nor the event-loop close happens on that path. -/
theorem cleanup_raises_when_client_unbound (e : Exc) (quitAnswer : Bool) :
    (runSession (some (false, e)) quitAnswer).httpClosed = false
    ∧ (runSession (some (false, e)) quitAnswer).fdsClosed = false
    ∧ (runSession (some (false, e)) quitAnswer).escaped
        = some "UnboundLocalError" := by
  cases e <;> cases quitAnswer <;> simp [runSession, finallyBlock, prompt_yesno]

/-- C4: every request exception, content-service (praw) exception and
internal RTV error that escapes the page loops (so `reddit` is bound) is
caught at the single top-level except clause, logged, and rendered to the
user as the one-line status `ErrorType: message`; no such error escapes the
session block unhandled. -/
theorem service_errors_logged_and_printed (n m : String) (quitAnswer : Bool) :
    (∀ e ∈ [Exc.requestException n m, Exc.prawException n m, Exc.rtvError n m],
        (runSession (some (true, e)) quitAnswer).logged = true
        ∧ (runSession (some (true, e)) quitAnswer).printedLine
            = some (n ++ ": " ++ m)
        ∧ (runSession (some (true, e)) quitAnswer).escaped = none) := by
  intro e he
  fin_cases he <;>
    exact ⟨rfl, rfl, by simp [runSession, finallyBlock]⟩

/-- C4 witness: the theorem applied to a concrete request exception. -/
theorem service_errors_logged_and_printed_witness :
    (runSession (some (true, Exc.requestException "HTTPError" "503")) false).logged
      = true
    ∧ (runSession (some (true, Exc.requestException "HTTPError" "503"))
        false).printedLine = some ("HTTPError" ++ ": " ++ "503")
    ∧ (runSession (some (true, Exc.requestException "HTTPError" "503"))
        false).escaped = none :=
  service_errors_logged_and_printed "HTTPError" "503" false
    (Exc.requestException "HTTPError" "503") (by simp)

/-! ## Startup flow of `main` as an event trace

Embedding of the order of effects in `main` on the successful path:

    if args.clear_auth:
        config.clear_refresh_token()
    ...
    with curses_session() as stdscr:
        reddit = praw.Reddit(...)                 # connect
        oauth = OAuthTool(reddit, stdscr, ...)
        if oauth.refresh_token:
            oauth.authorize()                      # authorize
        if args.link:
            SubmissionPage(...).loop()             # openSubmission
        subreddit = args.subreddit or 'front'
        if reddit.is_oauth_session():
            subscriptions = reddit.get_my_subreddits(limit=None)   # loadSubscriptions
            subscription_names = sorted(...)
        else:
            subscription_names = []
        SubredditPage(..., subreddit, ...).loop()  # openSubreddit
-/

/-- Effects of `main`, in program order. -/
inductive Ev where
  | clearToken
  | connect
  | authorize
  | openSubmission (url : String)
  | loadSubscriptions
  | openSubreddit (name : String)
deriving DecidableEq

/-- Network effects: everything except deleting the local token file touches
the content service. -/
def isNetworkEvent : Ev → Bool
  | .clearToken => false
  | _ => true

/-- Index of the first occurrence of an event in a trace (the trace's length
if absent). -/
def firstPos (e : Ev) : List Ev → Nat
  | [] => 0
  | x :: xs => if x = e then 0 else firstPos e xs + 1

/-- Modelled from the spec: `reddit.is_oauth_session()` (praw is not among
the sources) is true exactly when the authorization exchange has completed —
the spec's `AuthorizationService` publishes a completed signal consumed by
the main flow before the first authenticated action. -/
def is_oauth_session (authorized : Bool) : Bool := authorized

/-- Modelled from the spec: the refresh token `OAuthTool` sees at startup.
`config.clear_refresh_token()` (in `rtv.config`, not among the sources)
deletes the persisted token, so after an explicit clear-auth request no token
remains regardless of what was on disk. -/
def refreshTokenAfterStartup (clearAuth diskToken : Bool) : Bool :=
  diskToken && !clearAuth

/-- Embedding of `subscription_names` in `main`: the sorted names of the
fetched subscriptions when the session is authorized, and the empty list
otherwise. -/
def subscription_names (oauthSession : Bool) (fetched : List String) :
    List String :=
  if oauthSession then fetched.insertionSort (· ≤ ·) else []

/-- Trace of the try body of `main` on the successful path, as a function of
whether a refresh token is available to `OAuthTool`, the optional `args.link`
submission URL and the optional `args.subreddit` name. -/
def mainBodyTrace (token : Bool) (link subredditArg : Option String) :
    List Ev :=
  [Ev.connect]
  ++ (if token then [Ev.authorize] else [])
  ++ (match link with
      | some url => [Ev.openSubmission url]
      | none => [])
  ++ (if is_oauth_session token then [Ev.loadSubscriptions] else [])
  ++ [Ev.openSubreddit (subredditArg.getD "front")]

/-- Trace of `main` from the clear-auth check onwards, on the successful
path. -/
def mainTrace (clearAuth diskToken : Bool) (link subredditArg : Option String) :
    List Ev :=
  (if clearAuth then [Ev.clearToken] else [])
  ++ mainBodyTrace (refreshTokenAfterStartup clearAuth diskToken)
      link subredditArg

/-- C3: at startup the interactive authorization exchange runs exactly when a
persisted refresh token is present; without one the session stays
unauthenticated — no subscriptions fetch happens and the subscriptions list
is empty — and with one the exchange completes before the subscriptions
fetch, the first authenticated action. -/
theorem authorize_iff_refresh_token (link subredditArg : Option String)
    (fetched : List String) :
    ((mainBodyTrace true link subredditArg).contains Ev.authorize = true
      ∧ (mainBodyTrace false link subredditArg).contains Ev.authorize = false)
    ∧ ((mainBodyTrace false link subredditArg).contains Ev.loadSubscriptions
          = false
      ∧ subscription_names (is_oauth_session false) fetched = [])
    ∧ firstPos Ev.authorize (mainBodyTrace true link subredditArg)
        < firstPos Ev.loadSubscriptions (mainBodyTrace true link subredditArg) := by
  cases link <;>
    simp [mainBodyTrace, is_oauth_session, subscription_names, firstPos]

/-- C9: with a direct submission link on the command line, `main` opens the
submission page first and, after its loop returns, falls through and opens
the subreddit page (the requested subreddit or the front page) in the same
session trace. -/
theorem submission_link_falls_through_to_subreddit (token : Bool)
    (url : String) (subredditArg : Option String) :
    (mainBodyTrace token (some url) subredditArg).contains
        (Ev.openSubmission url) = true
    ∧ (mainBodyTrace token (some url) subredditArg).contains
        (Ev.openSubreddit (subredditArg.getD "front")) = true
    ∧ firstPos (Ev.openSubmission url)
          (mainBodyTrace token (some url) subredditArg)
        < firstPos (Ev.openSubreddit (subredditArg.getD "front"))
          (mainBodyTrace token (some url) subredditArg) := by
  cases token <;>
    simp [mainBodyTrace, is_oauth_session, firstPos]

/-- C5: clearing authorization deletes the persisted refresh token as the
very first effect — in particular before the connection to the content
service is opened — performs no network call itself, and leaves the session
unauthenticated: no authorization exchange runs, no subscriptions fetch
happens, and the subscriptions list is empty. -/
theorem clear_auth_deletes_token_before_connect (diskToken : Bool)
    (link subredditArg : Option String) (fetched : List String) :
    (mainTrace true diskToken link subredditArg).head? = some Ev.clearToken
    ∧ isNetworkEvent Ev.clearToken = false
    ∧ firstPos Ev.clearToken (mainTrace true diskToken link subredditArg)
        < firstPos Ev.connect (mainTrace true diskToken link subredditArg)
    ∧ (mainTrace true diskToken link subredditArg).contains Ev.authorize = false
    ∧ (mainTrace true diskToken link subredditArg).contains Ev.loadSubscriptions
        = false
    ∧ subscription_names
        (is_oauth_session (refreshTokenAfterStartup true diskToken)) fetched
        = [] := by
  cases link <;>
    simp [mainTrace, mainBodyTrace, refreshTokenAfterStartup, is_oauth_session,
      subscription_names, firstPos, isNetworkEvent]

/-! ## Navigation engine (Cursor/ScrollModel)

Modelled from the spec: the navigation modules (`rtv.submission`,
`rtv.subreddit`, `rtv.content`, `rtv.curses_helpers`) are not among the
sources, so the Cursor/ScrollModel is taken from the spec's words: selection
moves clamp to `[0, len(visibleRows)-1]`; `pageUp`/`pageDown` move the
selection by a full viewport and place it at the bottom/top visible row;
`recomputeScroll` is the invariant-restoring step run after every structural
change, shifting `scrollOffset` minimally to keep `selectedIndex` inside the
viewport.  The flattened view is abstracted by its length `numRows`. -/

/-- Modelled from the spec: `recomputeScroll(viewportHeight)` shifts
`scrollOffset` minimally to keep `selectedIndex` inside the viewport
`[scrollOffset, scrollOffset + viewportHeight - 1]`. -/
def recomputeScroll (s : NavigationState) : NavigationState :=
  if s.selectedIndex < s.scrollOffset then
    { s with scrollOffset := s.selectedIndex }
  else if s.scrollOffset + s.viewportHeight ≤ s.selectedIndex then
    { s with scrollOffset := s.selectedIndex + 1 - s.viewportHeight }
  else s

/-- Modelled from the spec: `moveSelection(delta)` clamps the selection to
`[0, len(visibleRows) - 1]` and then restores the scroll invariant. -/
def moveSelection (s : NavigationState) (delta : Int) : NavigationState :=
  recomputeScroll { s with selectedIndex :=
    (min (max ((s.selectedIndex : Int) + delta) 0)
      ((s.numRows : Int) - 1)).toNat }

/-- Modelled from the spec: `pageDown(viewportHeight)` moves the selection by
a full viewport and recomputes `scrollOffset` so the new selection is the top
visible row. -/
def pageDown (s : NavigationState) : NavigationState :=
  { s with
    selectedIndex := min (s.selectedIndex + s.viewportHeight) (s.numRows - 1),
    scrollOffset := min (s.selectedIndex + s.viewportHeight) (s.numRows - 1) }

/-- Modelled from the spec: `pageUp(viewportHeight)` moves the selection by a
full viewport and recomputes `scrollOffset` so the new selection is the
bottom visible row. -/
def pageUp (s : NavigationState) : NavigationState :=
  { s with
    selectedIndex := s.selectedIndex - s.viewportHeight,
    scrollOffset := s.selectedIndex - s.viewportHeight + 1 - s.viewportHeight }

/-- Modelled from the spec: a structural change of the flattened view
(fold/unfold, new children committed) replaces `numRows`, moves a
no-longer-valid selection back into range (the spec's tie-break moves it to
the collapsed ancestor, which in particular is a valid visible row), and runs
the invariant-restoring `recomputeScroll`. -/
def structuralChange (s : NavigationState) (newNumRows : Nat) :
    NavigationState :=
  recomputeScroll { s with
    numRows := newNumRows,
    selectedIndex := min s.selectedIndex (newNumRows - 1) }

/-- Modelled from the spec: a viewport resize replaces `viewportHeight` and
runs the invariant-restoring `recomputeScroll`. -/
def resizeViewport (s : NavigationState) (newHeight : Nat) : NavigationState :=
  recomputeScroll { s with viewportHeight := newHeight }

/-- The spec's NavigationState invariant, including positivity of the
viewport height. -/
def NavInvariant (s : NavigationState) : Prop :=
  1 ≤ s.viewportHeight
  ∧ (0 < s.numRows → s.selectedIndex < s.numRows)
  ∧ s.scrollOffset ≤ s.selectedIndex
  ∧ s.selectedIndex ≤ s.scrollOffset + s.viewportHeight - 1

/-- States reachable by the navigation engine: a fresh page starts with the
selection and scroll at the top, and every redraw follows one of the
operations above (viewport heights are positive). -/
inductive NavReachable : NavigationState → Prop where
  | init (numRows height : Nat) (hp : 0 < height) :
      NavReachable ⟨0, 0, numRows, height⟩
  | move (s : NavigationState) (delta : Int) :
      NavReachable s → NavReachable (moveSelection s delta)
  | pgDn (s : NavigationState) :
      NavReachable s → NavReachable (pageDown s)
  | pgUp (s : NavigationState) :
      NavReachable s → NavReachable (pageUp s)
  | structural (s : NavigationState) (newNumRows : Nat) :
      NavReachable s → NavReachable (structuralChange s newNumRows)
  | resize (s : NavigationState) (newHeight : Nat) (hp : 0 < newHeight) :
      NavReachable s → NavReachable (resizeViewport s newHeight)

theorem recomputeScroll_invariant (s : NavigationState)
    (hh : 1 ≤ s.viewportHeight)
    (hn : 0 < s.numRows → s.selectedIndex < s.numRows) :
    NavInvariant (recomputeScroll s) := by
  unfold NavInvariant recomputeScroll
  split_ifs <;> (try simp) <;> omega

theorem navInvariant_moveSelection (s : NavigationState) (delta : Int)
    (h : NavInvariant s) : NavInvariant (moveSelection s delta) := by
  obtain ⟨hh, hn, -, -⟩ := h
  unfold moveSelection
  apply recomputeScroll_invariant <;> simp <;> omega

theorem navInvariant_pageDown (s : NavigationState)
    (h : NavInvariant s) : NavInvariant (pageDown s) := by
  obtain ⟨hh, hn, -, -⟩ := h
  unfold NavInvariant pageDown
  simp
  omega

theorem navInvariant_pageUp (s : NavigationState)
    (h : NavInvariant s) : NavInvariant (pageUp s) := by
  obtain ⟨hh, hn, -, -⟩ := h
  unfold NavInvariant pageUp
  simp
  omega

theorem navInvariant_structuralChange (s : NavigationState) (newNumRows : Nat)
    (h : NavInvariant s) : NavInvariant (structuralChange s newNumRows) := by
  obtain ⟨hh, hn, -, -⟩ := h
  unfold structuralChange
  apply recomputeScroll_invariant <;> simp <;> omega

theorem navInvariant_resizeViewport (s : NavigationState) (newHeight : Nat)
    (hp : 0 < newHeight) (h : NavInvariant s) :
    NavInvariant (resizeViewport s newHeight) := by
  obtain ⟨hh, hn, -, -⟩ := h
  unfold resizeViewport
  apply recomputeScroll_invariant <;> simp <;> omega

/-- C6: every reachable NavigationState keeps the selection inside the
non-empty flattened view, `selectedIndex < numRows`, and after every redraw
the selection lies within the viewport:
`scrollOffset ≤ selectedIndex ≤ scrollOffset + viewportHeight - 1`. -/
theorem nav_selection_valid_and_visible (s : NavigationState)
    (h : NavReachable s) :
    (0 < s.numRows → s.selectedIndex < s.numRows)
    ∧ s.scrollOffset ≤ s.selectedIndex
    ∧ s.selectedIndex ≤ s.scrollOffset + s.viewportHeight - 1 := by
  have hInv : NavInvariant s := by
    induction h with
    | init numRows height hp =>
        exact ⟨hp, fun hn => hn, Nat.zero_le _, Nat.zero_le _⟩
    | move s delta _ ih => exact navInvariant_moveSelection s delta ih
    | pgDn s _ ih => exact navInvariant_pageDown s ih
    | pgUp s _ ih => exact navInvariant_pageUp s ih
    | structural s newNumRows _ ih =>
        exact navInvariant_structuralChange s newNumRows ih
    | resize s newHeight hp _ ih =>
        exact navInvariant_resizeViewport s newHeight hp ih
  exact ⟨hInv.2.1, hInv.2.2.1, hInv.2.2.2⟩

/-- C6 witness: the invariant holds at the concrete reachable state obtained
from a fresh five-row page with a three-row viewport after moving the
selection down four rows. -/
theorem nav_selection_valid_and_visible_witness :
    (0 < (moveSelection ⟨0, 0, 5, 3⟩ 4).numRows
      → (moveSelection ⟨0, 0, 5, 3⟩ 4).selectedIndex
          < (moveSelection ⟨0, 0, 5, 3⟩ 4).numRows)
    ∧ (moveSelection ⟨0, 0, 5, 3⟩ 4).scrollOffset
        ≤ (moveSelection ⟨0, 0, 5, 3⟩ 4).selectedIndex
    ∧ (moveSelection ⟨0, 0, 5, 3⟩ 4).selectedIndex
        ≤ (moveSelection ⟨0, 0, 5, 3⟩ 4).scrollOffset
          + (moveSelection ⟨0, 0, 5, 3⟩ 4).viewportHeight - 1 :=
  nav_selection_valid_and_visible (moveSelection ⟨0, 0, 5, 3⟩ 4)
    (NavReachable.move ⟨0, 0, 5, 3⟩ 4 (NavReachable.init 5 3 (by decide)))

end RTV
